import Mathlib

/-!
Shallow embedding of `detector.py` from the red-light-green-light repository.

Python floats are modelled as exact rationals (`ℚ`) for all stored data
(buffer values, thresholds, sensitivities, timestamps); the only genuinely
real-valued quantity, the standard deviation `variance ** 0.5` of the
anomaly strategy, is modelled with `Real.sqrt`, so confidences live in `ℝ`.
The heterogeneous metadata dict is a key/value association list.
`time.time()` is nondeterministic input, so the evaluation timestamp is an
explicit argument. The optional callback only produces side effects and
never changes the detector state or the returned result, so it is not part
of the state.
-/

namespace RLGL

/-- `DetectionType` enum from detector.py. -/
inductive DetectionType where
  | threshold
  | pattern
  | anomaly
  | change
deriving DecidableEq

/-- One value of the heterogeneous metadata dict: rationals for data-derived
numbers, reals for the anomaly strategy's square-root-derived numbers,
naturals for buffer sizes, strings for reasons and pattern names. -/
inductive MetaValue where
  | num (x : ℚ)
  | rnum (x : ℝ)
  | nat (n : ℕ)
  | str (s : String)

/-- `DetectionConfig` dataclass from detector.py (callback omitted: it is a
side effect that never alters the state or the result). `window_size` is a
Python `int`, hence `ℤ`. -/
structure DetectionConfig where
  detection_type : DetectionType
  threshold : Option ℚ := none
  window_size : ℤ := 10
  sensitivity : ℚ := 1

/-- `DetectionResult` dataclass from detector.py. -/
structure DetectionResult where
  detected : Bool
  confidence : ℝ
  timestamp : ℚ
  metadata : List (String × MetaValue)

/-- The `Detector` state: `config`, `data_buffer`, `detection_history` and
the (never read) `_last_detection_time` field. -/
structure Detector where
  config : DetectionConfig
  data_buffer : List ℚ
  detection_history : List DetectionResult
  last_detection_time : ℚ

/-- `Detector.__init__`: stores the config and starts with empty buffer and
history.  The source performs no validation whatsoever. -/
def Detector.init (config : DetectionConfig) : Detector :=
  { config := config
    data_buffer := []
    detection_history := []
    last_detection_time := 0 }

/-- The abstention result every strategy returns on insufficient data (and
the threshold strategy also returns on a missing threshold). -/
def insufficientData (timestamp : ℚ) : DetectionResult :=
  { detected := false
    confidence := 0
    timestamp := timestamp
    metadata := [("reason", MetaValue.str "insufficient_data")] }

/-- Buffer maintenance from `add_data_point`: append, then `pop(0)` when the
length exceeds `window_size` (an `int` comparison in Python). -/
def pushBuffer (window_size : ℤ) (buf : List ℚ) (value : ℚ) : List ℚ :=
  let b := buf ++ [value]
  if (b.length : ℤ) > window_size then b.drop 1 else b

/-- `Detector._threshold_detection`.  The source guard is
`not self.data_buffer or self.config.threshold is None`; `buf[-1]` is the
last element. -/
noncomputable def Detector.thresholdDetection (d : Detector) (timestamp : ℚ) :
    DetectionResult :=
  match d.data_buffer.getLast?, d.config.threshold with
  | none, _ => insufficientData timestamp
  | _, none => insufficientData timestamp
  | some current_value, some t =>
    { detected := decide (current_value ≥ t)
      confidence := ((if t ≠ 0 then min 1 (|current_value - t| / |t|) else 0 : ℚ) : ℝ)
      timestamp := timestamp
      metadata := [("current_value", MetaValue.num current_value),
                   ("threshold", MetaValue.num t),
                   ("buffer_size", MetaValue.nat d.data_buffer.length)] }

/-- `all(buf[i] < buf[i+1] for i in range(len(buf) - 1))`. -/
def chainLt : List ℚ → Bool
  | a :: b :: rest => decide (a < b) && chainLt (b :: rest)
  | _ => true

/-- `all(buf[i] > buf[i+1] for i in range(len(buf) - 1))`. -/
def chainGt : List ℚ → Bool
  | a :: b :: rest => decide (a > b) && chainGt (b :: rest)
  | _ => true

/-- `Detector._pattern_detection`. -/
noncomputable def Detector.patternDetection (d : Detector) (timestamp : ℚ) :
    DetectionResult :=
  if d.data_buffer.length < 3 then insufficientData timestamp
  else
    let is_increasing := chainLt d.data_buffer
    let is_decreasing := chainGt d.data_buffer
    let detected := is_increasing || is_decreasing
    { detected := detected
      confidence := ((if detected then 1 else 0 : ℚ) : ℝ)
      timestamp := timestamp
      metadata := [("pattern", MetaValue.str
                     (if is_increasing then "increasing"
                      else if is_decreasing then "decreasing" else "none")),
                   ("buffer_size", MetaValue.nat d.data_buffer.length)] }

/-- `Detector._anomaly_detection`.  `variance ** 0.5` is `Real.sqrt`;
`mean` and `variance` themselves are exact rationals. -/
noncomputable def Detector.anomalyDetection (d : Detector) (timestamp : ℚ) :
    DetectionResult :=
  if d.data_buffer.length < 3 then insufficientData timestamp
  else
    let buf := d.data_buffer
    let mean : ℚ := buf.sum / buf.length
    let variance : ℚ := (buf.map (fun x => (x - mean) ^ 2)).sum / buf.length
    let std_dev : ℝ := Real.sqrt ((variance : ℚ) : ℝ)
    let current_value : ℚ := buf.getLastD 0
    let thr : ℝ := (d.config.sensitivity : ℝ) * std_dev
    let deviation : ℝ := |((current_value : ℚ) : ℝ) - ((mean : ℚ) : ℝ)|
    { detected := decide (deviation > thr)
      confidence := if thr ≠ 0 then min 1 (deviation / max thr 1) else 0
      timestamp := timestamp
      metadata := [("current_value", MetaValue.num current_value),
                   ("mean", MetaValue.num mean),
                   ("std_dev", MetaValue.rnum std_dev),
                   ("deviation", MetaValue.rnum deviation)] }

/-- `Detector._change_detection`.  `buf[-2]` and `buf[-1]` as `getD`. -/
noncomputable def Detector.changeDetection (d : Detector) (timestamp : ℚ) :
    DetectionResult :=
  if d.data_buffer.length < 2 then insufficientData timestamp
  else
    let prev_value := d.data_buffer.getD (d.data_buffer.length - 2) 0
    let current_value := d.data_buffer.getD (d.data_buffer.length - 1) 0
    let relative_change :=
      if prev_value ≠ 0 then |(current_value - prev_value) / prev_value|
      else |current_value|
    { detected := decide (relative_change > d.config.sensitivity)
      confidence := ((if d.config.sensitivity ≠ 0 then
                       min 1 (relative_change / d.config.sensitivity)
                     else 0 : ℚ) : ℝ)
      timestamp := timestamp
      metadata := [("previous_value", MetaValue.num prev_value),
                   ("current_value", MetaValue.num current_value),
                   ("relative_change", MetaValue.num relative_change)] }

/-- `Detector._detect`: dispatch on the configured type.  The enum is closed,
so the Python `else` branch (unknown type) is unreachable. -/
noncomputable def Detector.detect (d : Detector) (timestamp : ℚ) : DetectionResult :=
  match d.config.detection_type with
  | .threshold => d.thresholdDetection timestamp
  | .pattern => d.patternDetection timestamp
  | .anomaly => d.anomalyDetection timestamp
  | .change => d.changeDetection timestamp

/-- `Detector.add_data_point`: push into the window, detect, append the
result to the history, return the result together with the new state. -/
noncomputable def Detector.add_data_point (d : Detector) (value : ℚ)
    (timestamp : ℚ) : DetectionResult × Detector :=
  let d1 : Detector :=
    { d with data_buffer := pushBuffer d.config.window_size d.data_buffer value }
  let result := d1.detect timestamp
  (result, { d1 with detection_history := d1.detection_history ++ [result] })

/-- `Detector.reset`. -/
def Detector.reset (d : Detector) : Detector :=
  { d with data_buffer := [], detection_history := [], last_detection_time := 0 }

/-- `Statistics` record returned by `get_statistics`. -/
structure Statistics where
  total_checks : ℕ
  positive_detections : ℕ
  detection_rate : ℝ
  average_confidence : ℝ
  buffer_size : ℕ

/-- `Detector.get_statistics`: a pure read of the history and buffer. -/
noncomputable def Detector.get_statistics (d : Detector) : Statistics :=
  let total_detections := d.detection_history.length
  let positive_detections := (d.detection_history.filter (fun r => r.detected)).length
  let avg_confidence : ℝ :=
    if d.detection_history.isEmpty then 0
    else
      (d.detection_history.map (fun r => r.confidence)).sum / d.detection_history.length
  { total_checks := total_detections
    positive_detections := positive_detections
    detection_rate :=
      if total_detections > 0 then
        (positive_detections : ℝ) / (total_detections : ℝ)
      else 0
    average_confidence := avg_confidence
    buffer_size := d.data_buffer.length }

/-- Ingest a whole sequence of values (left to right). -/
noncomputable def Detector.run (d : Detector) (values : List ℚ) (timestamp : ℚ) :
    Detector :=
  values.foldl (fun acc v => (acc.add_data_point v timestamp).2) d

/-! ### Spec-side definitions (written from the specification's wording,
to be compared with the embedded source code) -/

/-- Arithmetic mean of the window, as the spec words it. -/
def specMean (buf : List ℚ) : ℚ := buf.sum / buf.length

/-- Population variance of the window: squared deviations from the mean,
divided by N (not N - 1), as the spec words it. -/
def specPopVariance (buf : List ℚ) : ℚ :=
  (buf.map (fun x => (x - specMean buf) ^ 2)).sum / buf.length

/-- Population standard deviation of the window, as the spec words it. -/
noncomputable def specPopStdDev (buf : List ℚ) : ℝ :=
  Real.sqrt ((specPopVariance buf : ℚ) : ℝ)

/-- Relative change between the two most recent values, as the spec words
it: `|curr - prev| / |prev|` when `prev` is nonzero, `|curr|` when it is
zero. -/
def specRelChange (buf : List ℚ) : ℚ :=
  let prev := buf.getD (buf.length - 2) 0
  let curr := buf.getD (buf.length - 1) 0
  if prev = 0 then |curr| else |curr - prev| / |prev|

/-! ### Concrete configurations and states used by the witnesses and
counterexamples -/

/-- A Threshold-strategy config with no threshold value set. -/
def cfgNoThreshold : DetectionConfig :=
  { detection_type := .threshold, threshold := none }

/-- A config with a non-positive window size (Python accepts it). -/
def cfgZeroWindow : DetectionConfig :=
  { detection_type := .threshold, threshold := some 10, window_size := 0 }

/-- Threshold 10 with window size 3, for the FIFO witness. -/
def cfgW3 : DetectionConfig :=
  { detection_type := .threshold, threshold := some 10, window_size := 3 }

/-- Threshold 10, the spec's worked example. -/
def cfgThr10 : DetectionConfig :=
  { detection_type := .threshold, threshold := some 10 }

/-- Change strategy with sensitivity 0.5, the spec's worked example. -/
def cfgChangeHalf : DetectionConfig :=
  { detection_type := .change, sensitivity := 1/2 }

/-- Pattern strategy with window size 5, the spec's worked example. -/
def cfgPat5 : DetectionConfig :=
  { detection_type := .pattern, window_size := 5 }

/-- Anomaly strategy with sensitivity 2. -/
def cfgAnom : DetectionConfig :=
  { detection_type := .anomaly, sensitivity := 2 }

/-- Anomaly strategy with sensitivity 0 and a concrete window, for the
anomaly-formula witness. -/
def dAnomWitness : Detector :=
  { config := { detection_type := .anomaly, sensitivity := 0 }
    data_buffer := [0, 0, 6]
    detection_history := []
    last_detection_time := 0 }

/-- Pattern strategy atop the strictly increasing window [1, 2, 3, 4, 5]. -/
def dPatWitness : Detector :=
  { config := cfgPat5
    data_buffer := [1, 2, 3, 4, 5]
    detection_history := []
    last_detection_time := 0 }

/-- Anomaly strategy with the constant window [7, 7] about to receive a
third 7. -/
def dConstWitness : Detector :=
  { config := cfgAnom
    data_buffer := [7, 7]
    detection_history := []
    last_detection_time := 0 }

/-! ### Bridge lemmas about the state transformer -/

theorem add_data_point_fst (d : Detector) (v ts : ℚ) :
    (d.add_data_point v ts).1 =
      Detector.detect
        { d with data_buffer := pushBuffer d.config.window_size d.data_buffer v }
        ts := rfl

theorem add_data_point_snd_buffer (d : Detector) (v ts : ℚ) :
    (d.add_data_point v ts).2.data_buffer =
      pushBuffer d.config.window_size d.data_buffer v := rfl

theorem add_data_point_snd_config (d : Detector) (v ts : ℚ) :
    (d.add_data_point v ts).2.config = d.config := rfl

theorem add_data_point_snd_history (d : Detector) (v ts : ℚ) :
    (d.add_data_point v ts).2.detection_history =
      d.detection_history ++ [(d.add_data_point v ts).1] := rfl

theorem run_nil (d : Detector) (ts : ℚ) : d.run [] ts = d := rfl

theorem run_append_singleton (d : Detector) (vs : List ℚ) (v ts : ℚ) :
    d.run (vs ++ [v]) ts = ((d.run vs ts).add_data_point v ts).2 := by
  simp [Detector.run, List.foldl_append]

theorem run_config (d : Detector) (vs : List ℚ) (ts : ℚ) :
    (d.run vs ts).config = d.config := by
  induction vs generalizing d with
  | nil => rfl
  | cons v vs ih =>
    simpa [Detector.run] using ih ((d.add_data_point v ts).2)

theorem chainLt_iff (l : List ℚ) :
    chainLt l = true ↔ l.Chain' (fun a b => a < b) := by
  induction l with
  | nil => simp [chainLt]
  | cons a t ih =>
    cases t with
    | nil => simp [chainLt]
    | cons b r => simp [chainLt, List.chain'_cons, ih]

theorem chainGt_iff (l : List ℚ) :
    chainGt l = true ↔ l.Chain' (fun a b => a > b) := by
  induction l with
  | nil => simp [chainGt]
  | cons a t ih =>
    cases t with
    | nil => simp [chainGt]
    | cons b r => simp [chainGt, List.chain'_cons, ih]

theorem thresholdDetection_of_no_threshold (d : Detector) (ts : ℚ)
    (h : d.config.threshold = none) :
    d.thresholdDetection ts = insufficientData ts := by
  unfold Detector.thresholdDetection
  rw [h]
  cases d.data_buffer.getLast? <;> rfl

theorem getLast?_eq_some_getLastD (l : List ℚ) (h : l ≠ []) :
    l.getLast? = some (l.getLastD 0) := by
  rw [List.getLastD_eq_getLast?]
  cases hl : l.getLast? with
  | none => exact absurd (List.getLast?_eq_none_iff.mp hl) h
  | some v => rfl

theorem detect_threshold (d : Detector) (ts : ℚ)
    (h : d.config.detection_type = .threshold) :
    d.detect ts = d.thresholdDetection ts := by
  unfold Detector.detect; rw [h]

theorem detect_pattern (d : Detector) (ts : ℚ)
    (h : d.config.detection_type = .pattern) :
    d.detect ts = d.patternDetection ts := by
  unfold Detector.detect; rw [h]

theorem detect_anomaly (d : Detector) (ts : ℚ)
    (h : d.config.detection_type = .anomaly) :
    d.detect ts = d.anomalyDetection ts := by
  unfold Detector.detect; rw [h]

theorem detect_change (d : Detector) (ts : ℚ)
    (h : d.config.detection_type = .change) :
    d.detect ts = d.changeDetection ts := by
  unfold Detector.detect; rw [h]

/-! ### C1: threshold strategy with no threshold configured -/

/-- Claim C1, counterexample: with the Threshold strategy and no threshold
value set, ingesting 5 gives metadata reason "insufficient_data", not the
"insufficient_configuration" the claim asserts; the two abstention causes
are not distinguishable in the code. -/
theorem threshold_missing_config_reason_counterexample :
    ¬ (((Detector.init cfgNoThreshold).add_data_point 5 0).1.metadata.lookup "reason"
        = some (MetaValue.str "insufficient_configuration")) := by
  have h : ((Detector.init cfgNoThreshold).add_data_point 5 0).1 =
      insufficientData 0 := by
    rw [add_data_point_fst, detect_threshold _ _ rfl,
      thresholdDetection_of_no_threshold _ _ rfl]
  rw [h]
  simp [insufficientData, List.lookup]

/-- Claim C1 (amended): for a detector configured with the Threshold
strategy and no threshold value set, every call to ingest returns a result
with detected = false, confidence = 0.0, and metadata reason
"insufficient_data" — the same reason string as the empty-window
abstention, so the two causes are not distinguishable. -/
theorem threshold_missing_config_abstains (d : Detector) (value ts : ℚ)
    (hty : d.config.detection_type = .threshold)
    (hthr : d.config.threshold = none) :
    (d.add_data_point value ts).1.detected = false ∧
    (d.add_data_point value ts).1.confidence = 0 ∧
    (d.add_data_point value ts).1.metadata.lookup "reason" =
      some (MetaValue.str "insufficient_data") := by
  rw [add_data_point_fst]
  rw [detect_threshold
    { d with data_buffer := pushBuffer d.config.window_size d.data_buffer value }
    ts hty]
  rw [thresholdDetection_of_no_threshold
    { d with data_buffer := pushBuffer d.config.window_size d.data_buffer value }
    ts hthr]
  exact ⟨rfl, rfl, rfl⟩

/-- Witness for C1's theorem at the concrete no-threshold config,
ingesting 5. -/
theorem threshold_missing_config_abstains_witness :
    ((Detector.init cfgNoThreshold).add_data_point 5 0).1.detected = false ∧
    ((Detector.init cfgNoThreshold).add_data_point 5 0).1.confidence = 0 ∧
    ((Detector.init cfgNoThreshold).add_data_point 5 0).1.metadata.lookup "reason" =
      some (MetaValue.str "insufficient_data") :=
  threshold_missing_config_abstains (Detector.init cfgNoThreshold) 5 0 rfl rfl

/-! ### C2: no construction-time validation -/

/-- Claim C2, counterexample: `Detector.__init__` accepts a non-positive
window size, so a detector with windowSize = 0 is built and the claimed
invariant windowSize >= 1 fails for it. -/
theorem detector_construction_window_counterexample :
    ¬ (1 ≤ (Detector.init cfgZeroWindow).config.window_size) := by decide

/-- Claim C2 (amended): construction never fails and performs no
validation: for every config — an arbitrary strategy value of the closed
enum and any windowSize, including non-positive ones — the detector is
built, storing the config unchanged with empty window and history;
windowSize >= 1 holds only when the supplied config already satisfies
it. -/
theorem detector_construction_total (config : DetectionConfig) :
    (Detector.init config).config = config ∧
    (Detector.init config).data_buffer = [] ∧
    (Detector.init config).detection_history = [] :=
  ⟨rfl, rfl, rfl⟩

/-! ### C3: FIFO window maintenance -/

theorem run_buffer (cfg : DetectionConfig) (hN : 1 ≤ cfg.window_size)
    (vs : List ℚ) (ts : ℚ) :
    ((Detector.init cfg).run vs ts).data_buffer =
      vs.drop (vs.length - cfg.window_size.toNat) := by
  induction vs using List.reverseRecOn with
  | nil => simp [Detector.run, Detector.init]
  | append_singleton l v ih =>
    rw [run_append_singleton, add_data_point_snd_buffer, run_config, ih,
      show (Detector.init cfg).config = cfg from rfl]
    have hN' : 1 ≤ cfg.window_size.toNat := by omega
    simp only [pushBuffer]
    by_cases hlen : l.length < cfg.window_size.toNat
    · have hcond : ¬ (((l.drop (l.length - cfg.window_size.toNat) ++ [v]).length : ℤ)
          > cfg.window_size) := by
        simp only [List.length_append, List.length_drop, List.length_cons,
          List.length_nil]
        omega
      rw [if_neg hcond]
      have h0 : l.length - cfg.window_size.toNat = 0 := by omega
      have h0' : (l ++ [v]).length - cfg.window_size.toNat = 0 := by
        simp only [List.length_append, List.length_cons, List.length_nil]
        omega
      rw [h0, h0', List.drop_zero, List.drop_zero]
    · have hcond : ((l.drop (l.length - cfg.window_size.toNat) ++ [v]).length : ℤ)
          > cfg.window_size := by
        simp only [List.length_append, List.length_drop, List.length_cons,
          List.length_nil]
        omega
      rw [if_pos hcond]
      have hle : 1 ≤ (l.drop (l.length - cfg.window_size.toNat)).length := by
        rw [List.length_drop]
        omega
      have hle2 : (l ++ [v]).length - cfg.window_size.toNat ≤ l.length := by
        simp only [List.length_append, List.length_cons, List.length_nil]
        omega
      rw [List.drop_append_of_le_length hle, List.drop_drop,
        List.drop_append_of_le_length hle2]
      have hidx : l.length - cfg.window_size.toNat + 1 =
          (l ++ [v]).length - cfg.window_size.toNat := by
        simp only [List.length_append, List.length_cons, List.length_nil]
        omega
      rw [hidx]

/-- Claim C3: for every windowSize N >= 1 and sequence of M ingested values
starting from an empty window, after the Mth ingest the window has length
exactly min(M, N) and equals the last min(M, N) ingested values in
insertion order (oldest evicted first). -/
theorem ingest_window_fifo (cfg : DetectionConfig) (hN : 1 ≤ cfg.window_size)
    (vs : List ℚ) (ts : ℚ) :
    ((Detector.init cfg).run vs ts).data_buffer =
      vs.drop (vs.length - min vs.length cfg.window_size.toNat) ∧
    ((Detector.init cfg).run vs ts).data_buffer.length =
      min vs.length cfg.window_size.toNat := by
  have h := run_buffer cfg hN vs ts
  constructor
  · rw [h]
    congr 1
    omega
  · rw [h, List.length_drop]
    omega

/-- Witness for C3 at windowSize 3 and the five-element sequence
[1, 2, 3, 4, 5]: the final window is [3, 4, 5]. -/
theorem ingest_window_fifo_witness :
    ((Detector.init cfgW3).run [1, 2, 3, 4, 5] 0).data_buffer = [3, 4, 5] ∧
    ((Detector.init cfgW3).run [1, 2, 3, 4, 5] 0).data_buffer.length = 3 := by
  have h := ingest_window_fifo cfgW3 (by decide) [1, 2, 3, 4, 5] 0
  refine ⟨?_, ?_⟩
  · rw [h.1]; decide
  · rw [h.2]; decide

/-! ### More helper lemmas -/

theorem bool_eq_false_of_iff {b : Bool} {p : Prop} (h : b = true ↔ p)
    (hp : ¬ p) : b = false := by
  cases b
  · rfl
  · exact absurd (h.mp rfl) hp

theorem getLastD_eq_getLast (l : List ℚ) (h : l ≠ []) :
    l.getLastD 0 = l.getLast h := by
  have h1 := getLast?_eq_some_getLastD l h
  rw [List.getLast?_eq_getLast l h] at h1
  injection h1 with h2
  exact h2.symm

theorem getLastD_mem (l : List ℚ) (h : l ≠ []) : l.getLastD 0 ∈ l := by
  rw [getLastD_eq_getLast l h]
  exact List.getLast_mem h

theorem chain_gt_not_lt {l : List ℚ} (h2 : 2 ≤ l.length)
    (hgt : l.Chain' (fun a b => a > b)) :
    ¬ l.Chain' (fun a b => a < b) := by
  intro hlt
  cases l with
  | nil => simp at h2
  | cons a t =>
    cases t with
    | nil => simp at h2
    | cons b r =>
      rw [List.chain'_cons] at hgt hlt
      exact absurd hgt.1 (asymm hlt.1)

/-! ### C6: threshold strategy formula -/

/-- Claim C6: for the Threshold strategy with a threshold `t` configured and
a non-empty window, with `v` the most recent value: detected = (v >= t),
boundary inclusive; confidence = 0 when t = 0 and
min(1, |v - t| / |t|) otherwise. -/
theorem threshold_detection_formula (d : Detector) (ts t : ℚ)
    (hty : d.config.detection_type = .threshold)
    (hthr : d.config.threshold = some t)
    (hbuf : d.data_buffer ≠ []) :
    ((d.detect ts).detected = true ↔ d.data_buffer.getLastD 0 ≥ t) ∧
    (t = 0 → (d.detect ts).confidence = 0) ∧
    (t ≠ 0 → (d.detect ts).confidence =
      ((min 1 (|d.data_buffer.getLastD 0 - t| / |t|) : ℚ) : ℝ)) := by
  rw [detect_threshold d ts hty]
  unfold Detector.thresholdDetection
  rw [getLast?_eq_some_getLastD d.data_buffer hbuf, hthr]
  refine ⟨?_, ?_, ?_⟩
  · simp
  · intro h0
    simp [h0]
  · intro h0
    simp [h0]

/-- Witness for C6 at threshold 10: ingesting 5 then 15 yields
detected = [false, true], and ingesting exactly 10 yields detected =
true. -/
theorem threshold_detection_formula_witness :
    ((Detector.init cfgThr10).add_data_point 5 0).1.detected = false ∧
    (((Detector.init cfgThr10).add_data_point 5 0).2.add_data_point 15 0).1.detected
      = true ∧
    ((Detector.init cfgThr10).add_data_point 10 0).1.detected = true := by
  refine ⟨?_, ?_, ?_⟩
  · rw [add_data_point_fst]
    exact bool_eq_false_of_iff
      (threshold_detection_formula _ 0 10 rfl rfl (by decide)).1 (by decide)
  · rw [add_data_point_fst]
    exact (threshold_detection_formula _ 0 10 rfl rfl (by decide)).1.mpr (by decide)
  · rw [add_data_point_fst]
    exact (threshold_detection_formula _ 0 10 rfl rfl (by decide)).1.mpr (by decide)

/-! ### C5: change strategy formula -/

/-- Claim C5: for the Change strategy with at least 2 values in the window,
with `prev` and `curr` the two most recent values: relativeChange =
|curr - prev| / |prev| when prev is nonzero and |curr| when prev = 0
(never dividing by zero, which in this exact-rational embedding is the
fact that the `prev = 0` branch takes the absolute-value fallback), and
detected = (relativeChange > sensitivity). -/
theorem change_detection_formula (d : Detector) (ts : ℚ)
    (hty : d.config.detection_type = .change)
    (h2 : 2 ≤ d.data_buffer.length) :
    ((d.detect ts).detected = true ↔
      specRelChange d.data_buffer > d.config.sensitivity) ∧
    (d.config.sensitivity = 0 → (d.detect ts).confidence = 0) ∧
    (d.config.sensitivity ≠ 0 → (d.detect ts).confidence =
      ((min 1 (specRelChange d.data_buffer / d.config.sensitivity) : ℚ) : ℝ)) := by
  have hrel : (if d.data_buffer.getD (d.data_buffer.length - 2) 0 ≠ 0 then
        |(d.data_buffer.getD (d.data_buffer.length - 1) 0 -
          d.data_buffer.getD (d.data_buffer.length - 2) 0) /
          d.data_buffer.getD (d.data_buffer.length - 2) 0|
      else |d.data_buffer.getD (d.data_buffer.length - 1) 0|) =
      specRelChange d.data_buffer := by
    simp only [specRelChange]
    by_cases hp : d.data_buffer.getD (d.data_buffer.length - 2) 0 = 0
    · rw [if_neg (fun h => h hp), if_pos hp]
    · rw [if_pos hp, if_neg hp, abs_div]
  rw [detect_change d ts hty]
  simp only [Detector.changeDetection]
  rw [if_neg (show ¬ d.data_buffer.length < 2 by omega), hrel]
  refine ⟨?_, ?_, ?_⟩
  · simp
  · intro h0
    simp [h0]
  · intro h0
    simp [h0]

/-- Witness for C5: ingesting 0.0 then 1.0 with sensitivity 0.5 yields
detected = true via the absolute-value fallback. -/
theorem change_detection_formula_witness :
    (((Detector.init cfgChangeHalf).add_data_point 0 0).2.add_data_point 1 0).1.detected
      = true := by
  rw [add_data_point_fst]
  refine (change_detection_formula _ 0 rfl (by decide)).1.mpr ?_
  show specRelChange [0, 1] > (1/2 : ℚ)
  rw [specRelChange]
  norm_num

/-! ### C7: pattern strategy characterization -/

/-- Claim C7: for the Pattern strategy, fewer than 3 values yields the
insufficient-data abstention; with at least 3 values, detected holds
exactly when the entire window is strictly increasing or strictly
decreasing (ties make neither hold), confidence is exactly 1 when detected
and 0 otherwise, and metadata pattern is "increasing", "decreasing" or
"none" accordingly. -/
theorem pattern_detection_characterization (d : Detector) (ts : ℚ)
    (hty : d.config.detection_type = .pattern) :
    (d.data_buffer.length < 3 →
      (d.detect ts).detected = false ∧ (d.detect ts).confidence = 0 ∧
      (d.detect ts).metadata.lookup "reason" =
        some (MetaValue.str "insufficient_data")) ∧
    (3 ≤ d.data_buffer.length →
      ((d.detect ts).detected = true ↔
        d.data_buffer.Chain' (fun a b => a < b) ∨
          d.data_buffer.Chain' (fun a b => a > b)) ∧
      ((d.detect ts).detected = true → (d.detect ts).confidence = 1) ∧
      ((d.detect ts).detected = false → (d.detect ts).confidence = 0) ∧
      (d.data_buffer.Chain' (fun a b => a < b) →
        (d.detect ts).metadata.lookup "pattern" =
          some (MetaValue.str "increasing")) ∧
      (d.data_buffer.Chain' (fun a b => a > b) →
        (d.detect ts).metadata.lookup "pattern" =
          some (MetaValue.str "decreasing")) ∧
      (¬ d.data_buffer.Chain' (fun a b => a < b) →
        ¬ d.data_buffer.Chain' (fun a b => a > b) →
        (d.detect ts).metadata.lookup "pattern" =
          some (MetaValue.str "none"))) := by
  rw [detect_pattern d ts hty]
  constructor
  · intro hlt
    simp only [Detector.patternDetection]
    rw [if_pos hlt]
    exact ⟨rfl, rfl, rfl⟩
  · intro hge
    simp only [Detector.patternDetection]
    rw [if_neg (show ¬ d.data_buffer.length < 3 by omega)]
    refine ⟨?_, ?_, ?_, ?_, ?_, ?_⟩
    · simp [chainLt_iff, chainGt_iff]
    · intro hdet
      simp only [DetectionResult.detected] at hdet
      simp [hdet]
    · intro hdet
      simp only [DetectionResult.detected] at hdet
      simp [hdet]
    · intro hinc
      have h1 : chainLt d.data_buffer = true := (chainLt_iff _).mpr hinc
      simp [h1, List.lookup]
    · intro hdec
      have h1 : chainGt d.data_buffer = true := (chainGt_iff _).mpr hdec
      have h2 : chainLt d.data_buffer = false :=
        bool_eq_false_of_iff (chainLt_iff _)
          (chain_gt_not_lt (by omega) hdec)
      simp [h1, h2, List.lookup]
    · intro hninc hndec
      have h1 : chainLt d.data_buffer = false :=
        bool_eq_false_of_iff (chainLt_iff _) hninc
      have h2 : chainGt d.data_buffer = false :=
        bool_eq_false_of_iff (chainGt_iff _) hndec
      simp [h1, h2, List.lookup]

/-- Witness for C7 at the strictly increasing window [1, 2, 3, 4, 5]:
detected with confidence 1 and metadata pattern "increasing". -/
theorem pattern_detection_characterization_witness :
    (dPatWitness.detect 0).detected = true ∧
    (dPatWitness.detect 0).confidence = 1 ∧
    (dPatWitness.detect 0).metadata.lookup "pattern" =
      some (MetaValue.str "increasing") := by
  have h := (pattern_detection_characterization dPatWitness 0 rfl).2 (by decide)
  have hinc : dPatWitness.data_buffer.Chain' (fun a b => a < b) :=
    (chainLt_iff dPatWitness.data_buffer).mp (by decide)
  have hdet : (dPatWitness.detect 0).detected = true := h.1.mpr (Or.inl hinc)
  exact ⟨hdet, h.2.1 hdet, h.2.2.2.1 hinc⟩

/-! ### C4: anomaly strategy formula -/

theorem anomalyDetection_eq_spec (d : Detector) (ts : ℚ)
    (h3 : 3 ≤ d.data_buffer.length) :
    d.anomalyDetection ts =
    { detected := decide
        (|((d.data_buffer.getLastD 0 : ℚ) : ℝ) - ((specMean d.data_buffer : ℚ) : ℝ)| >
          (d.config.sensitivity : ℝ) * specPopStdDev d.data_buffer)
      confidence :=
        if (d.config.sensitivity : ℝ) * specPopStdDev d.data_buffer ≠ 0 then
          min 1
            (|((d.data_buffer.getLastD 0 : ℚ) : ℝ) - ((specMean d.data_buffer : ℚ) : ℝ)| /
              max ((d.config.sensitivity : ℝ) * specPopStdDev d.data_buffer) 1)
        else 0
      timestamp := ts
      metadata := [("current_value", MetaValue.num (d.data_buffer.getLastD 0)),
                   ("mean", MetaValue.num (specMean d.data_buffer)),
                   ("std_dev", MetaValue.rnum (specPopStdDev d.data_buffer)),
                   ("deviation", MetaValue.rnum
                     (|((d.data_buffer.getLastD 0 : ℚ) : ℝ) -
                       ((specMean d.data_buffer : ℚ) : ℝ)|))] } := by
  simp only [Detector.anomalyDetection]
  rw [if_neg (show ¬ d.data_buffer.length < 3 by omega)]
  rfl

/-- Claim C4: for the Anomaly strategy with at least 3 values in the
window, the mean is the arithmetic mean and the standard deviation the
population standard deviation (divide by N) of the entire window; with `v`
the most recent value, dev = |v - mean| and boundary = sensitivity *
stdDev: detected = (dev > boundary), confidence = 0 when boundary = 0 and
min(1, dev / max(boundary, 1)) otherwise. -/
theorem anomaly_detection_formula (d : Detector) (ts : ℚ)
    (hty : d.config.detection_type = .anomaly)
    (h3 : 3 ≤ d.data_buffer.length) :
    ((d.detect ts).detected = true ↔
      |((d.data_buffer.getLastD 0 : ℚ) : ℝ) - ((specMean d.data_buffer : ℚ) : ℝ)| >
        (d.config.sensitivity : ℝ) * specPopStdDev d.data_buffer) ∧
    ((d.config.sensitivity : ℝ) * specPopStdDev d.data_buffer = 0 →
      (d.detect ts).confidence = 0) ∧
    ((d.config.sensitivity : ℝ) * specPopStdDev d.data_buffer ≠ 0 →
      (d.detect ts).confidence =
        min 1
          (|((d.data_buffer.getLastD 0 : ℚ) : ℝ) - ((specMean d.data_buffer : ℚ) : ℝ)| /
            max ((d.config.sensitivity : ℝ) * specPopStdDev d.data_buffer) 1)) := by
  rw [detect_anomaly d ts hty, anomalyDetection_eq_spec d ts h3]
  refine ⟨?_, ?_, ?_⟩
  · simp
  · intro h0
    simp [h0]
  · intro h0
    simp [h0]

/-- Witness for C4 at the window [0, 0, 6] with sensitivity 0: the boundary
sensitivity * stdDev is 0, so confidence is 0, while the deviation
|6 - 2| = 4 exceeds the boundary, so detected = true. -/
theorem anomaly_detection_formula_witness :
    (dAnomWitness.detect 0).detected = true ∧
    (dAnomWitness.detect 0).confidence = 0 := by
  have h := anomaly_detection_formula dAnomWitness 0 rfl (by decide)
  have hthr : (dAnomWitness.config.sensitivity : ℝ) *
      specPopStdDev dAnomWitness.data_buffer = 0 := by
    rw [show dAnomWitness.config.sensitivity = 0 from rfl]
    simp
  refine ⟨h.1.mpr ?_, h.2.1 hthr⟩
  rw [hthr]
  have hlast : dAnomWitness.data_buffer.getLastD 0 = 6 := by decide
  have hmean : specMean dAnomWitness.data_buffer = 2 := by
    show specMean [0, 0, 6] = 2
    rw [specMean]
    norm_num
  rw [hlast, hmean]
  push_cast
  norm_num

/-! ### C10: a constant anomaly window never detects -/

theorem anomalyDetection_const (e : Detector) (ts : ℚ)
    (h3 : 3 ≤ e.data_buffer.length)
    (hall : ∀ x ∈ e.data_buffer, x = e.data_buffer.getLastD 0) :
    (e.anomalyDetection ts).detected = false ∧
    (e.anomalyDetection ts).confidence = 0 := by
  have hlen : (e.data_buffer.length : ℚ) ≠ 0 := by
    have h0 : e.data_buffer.length ≠ 0 := by omega
    exact_mod_cast h0
  have hsum : e.data_buffer.sum =
      (e.data_buffer.length : ℚ) * e.data_buffer.getLastD 0 := by
    conv_lhs => rw [List.eq_replicate_of_mem hall]
    rw [List.sum_replicate, nsmul_eq_mul]
  have hmean : e.data_buffer.sum / (e.data_buffer.length : ℚ) =
      e.data_buffer.getLastD 0 := by
    rw [hsum, mul_comm, mul_div_assoc, div_self hlen, mul_one]
  have hvar : (e.data_buffer.map (fun x =>
      (x - e.data_buffer.sum / (e.data_buffer.length : ℚ)) ^ 2)).sum = 0 := by
    apply List.sum_eq_zero
    intro x hx
    rcases List.mem_map.mp hx with ⟨y, hy, rfl⟩
    rw [hmean, hall y hy]
    ring
  simp only [Detector.anomalyDetection]
  rw [if_neg (show ¬ e.data_buffer.length < 3 by omega)]
  rw [hvar, zero_div, Rat.cast_zero, Real.sqrt_zero, mul_zero, hmean,
    sub_self, abs_zero]
  constructor
  · simp
  · simp

/-- Claim C10: for the Anomaly strategy, whenever ingest leaves the window
holding at least 3 values that are all equal to one another, the result of
that ingest has detected = false and confidence = 0: the most recent value
belongs to the window, so zero variance forces a zero deviation and a zero
boundary. -/
theorem anomaly_constant_window_no_detection (d : Detector) (v ts : ℚ)
    (hty : d.config.detection_type = .anomaly)
    (h3 : 3 ≤ (d.add_data_point v ts).2.data_buffer.length)
    (hconst : ∀ x ∈ (d.add_data_point v ts).2.data_buffer,
        ∀ y ∈ (d.add_data_point v ts).2.data_buffer, x = y) :
    (d.add_data_point v ts).1.detected = false ∧
    (d.add_data_point v ts).1.confidence = 0 := by
  have hne : (d.add_data_point v ts).2.data_buffer ≠ [] := by
    intro h
    rw [h] at h3
    simp at h3
  have hall : ∀ x ∈ (d.add_data_point v ts).2.data_buffer,
      x = (d.add_data_point v ts).2.data_buffer.getLastD 0 :=
    fun x hx => hconst x hx _ (getLastD_mem _ hne)
  rw [add_data_point_fst]
  rw [detect_anomaly
    { d with data_buffer := pushBuffer d.config.window_size d.data_buffer v }
    ts hty]
  exact anomalyDetection_const _ ts h3 hall

/-- Witness for C10: the window [7, 7] receiving a third 7 becomes the
constant window [7, 7, 7], and the ingest reports no detection with
confidence 0. -/
theorem anomaly_constant_window_no_detection_witness :
    (dConstWitness.add_data_point 7 0).1.detected = false ∧
    (dConstWitness.add_data_point 7 0).1.confidence = 0 :=
  anomaly_constant_window_no_detection dConstWitness 7 0 rfl (by decide)
    (by decide)

/-! ### C8: confidence always lies in [0, 1] -/

theorem insufficientData_confidence_bounds (ts : ℚ) :
    0 ≤ (insufficientData ts).confidence ∧
    (insufficientData ts).confidence ≤ 1 := by
  constructor <;> norm_num [insufficientData]

theorem clamp_cast_bounds (c : Prop) [Decidable c] (x : ℚ) (hx : 0 ≤ x) :
    0 ≤ ((if c then min 1 x else 0 : ℚ) : ℝ) ∧
    ((if c then min 1 x else 0 : ℚ) : ℝ) ≤ 1 := by
  constructor
  · split
    · exact_mod_cast le_min zero_le_one hx
    · norm_num
  · split
    · exact_mod_cast min_le_left 1 x
    · norm_num

theorem binary_cast_bounds (c : Prop) [Decidable c] :
    0 ≤ ((if c then 1 else 0 : ℚ) : ℝ) ∧
    ((if c then 1 else 0 : ℚ) : ℝ) ≤ 1 := by
  constructor <;> split <;> norm_num

theorem anomaly_conf_bounds (thr dev : ℝ) (hdev : 0 ≤ dev) :
    0 ≤ (if thr ≠ 0 then min 1 (dev / max thr 1) else 0) ∧
    (if thr ≠ 0 then min 1 (dev / max thr 1) else 0) ≤ 1 := by
  constructor
  · split
    · exact le_min zero_le_one
        (div_nonneg hdev (le_trans zero_le_one (le_max_right _ _)))
    · exact le_refl 0
  · split
    · exact min_le_left _ _
    · exact zero_le_one

theorem detect_confidence_bounds (d : Detector) (ts : ℚ)
    (hs : 0 ≤ d.config.sensitivity) :
    0 ≤ (d.detect ts).confidence ∧ (d.detect ts).confidence ≤ 1 := by
  unfold Detector.detect
  split
  · unfold Detector.thresholdDetection
    split
    · exact insufficientData_confidence_bounds ts
    · exact insufficientData_confidence_bounds ts
    · exact clamp_cast_bounds _ _ (div_nonneg (abs_nonneg _) (abs_nonneg _))
  · simp only [Detector.patternDetection]
    split
    · exact insufficientData_confidence_bounds ts
    · exact binary_cast_bounds _
  · simp only [Detector.anomalyDetection]
    split
    · exact insufficientData_confidence_bounds ts
    · exact anomaly_conf_bounds _ _ (abs_nonneg _)
  · simp only [Detector.changeDetection]
    split
    · exact insufficientData_confidence_bounds ts
    · apply clamp_cast_bounds
      apply div_nonneg _ hs
      split
      · exact abs_nonneg _
      · exact abs_nonneg _

/-- Claim C8: for every detector whose configuration has windowSize >= 1
and sensitivity >= 0 and every sequence of ingested values, the confidence
of every result in the history (each produced by one ingest call) lies in
[0, 1], for every strategy and every input, including threshold = 0,
sensitivity = 0 and previous value = 0. -/
theorem confidence_in_unit_interval (cfg : DetectionConfig)
    (hw : 1 ≤ cfg.window_size) (hs : 0 ≤ cfg.sensitivity)
    (vs : List ℚ) (ts : ℚ) (r : DetectionResult)
    (hr : r ∈ ((Detector.init cfg).run vs ts).detection_history) :
    0 ≤ r.confidence ∧ r.confidence ≤ 1 := by
  induction vs using List.reverseRecOn with
  | nil => simp [Detector.run, Detector.init] at hr
  | append_singleton l v ih =>
    rw [run_append_singleton, add_data_point_snd_history] at hr
    rcases List.mem_append.mp hr with h | h
    · exact ih h
    · rw [List.mem_singleton] at h
      subst h
      rw [add_data_point_fst]
      apply detect_confidence_bounds
      show (0 : ℚ) ≤ ((Detector.init cfg).run l ts).config.sensitivity
      rw [run_config]
      exact hs

/-- Witness for C8 at the pattern config with window 5 and sensitivity 1,
ingesting the single value 0: the one history entry is the
insufficient-data abstention, whose confidence 0 lies in [0, 1]. -/
theorem confidence_in_unit_interval_witness :
    0 ≤ (insufficientData 0).confidence ∧ (insufficientData 0).confidence ≤ 1 :=
  confidence_in_unit_interval cfgPat5 (by decide) (by decide) [0] 0
    (insufficientData 0) (List.mem_singleton.mpr rfl)

/-! ### C9: statistics -/

/-- Claim C9: `get_statistics` is a pure read of the state (in this
embedding it returns a `Statistics` value and leaves the detector
untouched by construction): totalChecks is the history length,
positiveDetections counts the detected entries, detectionRate is their
quotient guarded by totalChecks > 0, averageConfidence is the mean
confidence guarded by history nonemptiness, and the reported buffer size
is the window length; no division by zero is ever performed because both
divisions are guarded. -/
theorem get_statistics_correct (d : Detector) :
    (d.get_statistics).total_checks = d.detection_history.length ∧
    (d.get_statistics).positive_detections =
      d.detection_history.countP (fun r => r.detected) ∧
    (d.get_statistics).detection_rate =
      (if 0 < d.detection_history.length then
        ((d.detection_history.countP (fun r => r.detected) : ℕ) : ℝ) /
          ((d.detection_history.length : ℕ) : ℝ)
      else 0) ∧
    (d.detection_history = [] → (d.get_statistics).average_confidence = 0) ∧
    (d.detection_history ≠ [] → (d.get_statistics).average_confidence =
      (d.detection_history.map (fun r => r.confidence)).sum /
        ((d.detection_history.length : ℕ) : ℝ)) ∧
    (d.get_statistics).buffer_size = d.data_buffer.length := by
  have hcount : (d.detection_history.filter (fun r => r.detected)).length =
      d.detection_history.countP (fun r => r.detected) :=
    (List.countP_eq_length_filter _ _).symm
  refine ⟨rfl, ?_, ?_, ?_, ?_, rfl⟩
  · simp only [Detector.get_statistics]
    exact hcount
  · simp only [Detector.get_statistics]
    rw [hcount]
  · intro h
    simp only [Detector.get_statistics]
    rw [show d.detection_history.isEmpty = true from by simp [h]]
    rfl
  · intro h
    simp only [Detector.get_statistics]
    rw [show d.detection_history.isEmpty = false from by simp [h]]
    rfl

end RLGL
